import Mathlib

/-!
Verification of the wall-panel QC core: the deterministic rule engine
(`deterministic_checker.py`), the violation merger (`violation_merger.py`)
and the remediation applier (`remediation_applier.py`).

Python floats are modelled as rationals (ℚ), Python ints as ℤ/ℕ, Python
dictionaries with fixed key sets as structures whose optional keys are
`Option` fields, and Python functions that can raise (`KeyError`,
`IndexError`, `ValueError`) as functions into `Except String`.
-/

deriving instance DecidableEq for Except

/-- A vertical stud in the panel (class `Stud`). -/
structure Stud where
  stud_id : String
  position_mm : ℚ
  width_mm : ℚ
  depth_mm : ℚ
deriving DecidableEq

/-- A door or window opening (class `Opening`). -/
structure Opening where
  opening_id : String
  opening_type : String
  position_mm : ℚ
  width_mm : ℚ
  height_mm : ℚ
  has_jack_studs : Bool
  has_header : Bool
  is_corner : Bool
deriving DecidableEq

/-- An MEP duct in the panel (class `Duct`). -/
structure Duct where
  duct_id : String
  position_mm : ℚ
  diameter_mm : ℚ
  clearance_from_stud_mm : ℚ
deriving DecidableEq

/-- Structured panel data (class `PanelData`). -/
structure PanelData where
  panel_id : String
  name : String
  width_mm : ℚ
  height_mm : ℚ
  studs : List Stud
  openings : List Opening
  ducts : List Duct
  seismic_zone : ℤ
deriving DecidableEq

/-- Violation severity levels (enum `SeverityLevel`). -/
inductive SeverityLevel where
  | low
  | medium
  | high
  | critical
deriving DecidableEq

/-- A detected violation (class `DeterministicViolation`). -/
structure DeterministicViolation where
  violation_id : String
  rule_id : String
  element : String
  violation_type : String
  severity : SeverityLevel
  expected : Option ℚ
  actual : Option ℚ
  unit : String
  passed : Bool
  reason : String
deriving DecidableEq

/-- One entry of the `"rules"` list of a rule family.  Only the keys the checker
reads are modelled; a key the JSON may omit is an `Option` field. -/
structure RuleEntry where
  id : String
  severity : Option String
  width_threshold_mm : Option ℚ
deriving DecidableEq

/-- One rule family of the rule table (a nested Python dict).  Every key the
checker reads is an `Option` field: `none` models an absent key. -/
structure RuleFamily where
  rules : Option (List RuleEntry)
  standard_spacing_mm : Option ℚ
  tolerance_mm : Option ℚ
  duct_to_stud_mm : Option ℚ
deriving DecidableEq

/-- The rule table: a dict keyed by rule family name.  `none` models an
absent family key. -/
structure RuleTable where
  stud_spacing : Option RuleFamily
  openings : Option RuleFamily
  mep_clearance : Option RuleFamily
deriving DecidableEq

/-- Python `SeverityLevel(s)`: the str-enum constructor, raising `ValueError`
on an unknown value. -/
def sevOf : String → Except String SeverityLevel
  | "low" => .ok .low
  | "medium" => .ok .medium
  | "high" => .ok .high
  | "critical" => .ok .critical
  | s => .error ("ValueError: " ++ s ++ " is not a valid SeverityLevel")

/-- Python dict subscription `d[k]`: raises `KeyError` (here: the given
message) when the key is absent. -/
def keyOrErr {α : Type} (msg : String) : Option α → Except String α
  | none => .error msg
  | some a => .ok a

/-- The adjacent index pairs walked by
`for i in range(len(panel.studs) - 1)`: element `(i, studs[i], studs[i+1])`. -/
def enumPairsFrom (i : ℕ) : List Stud → List (ℕ × Stud × Stud)
  | a :: b :: rest => (i, a, b) :: enumPairsFrom (i + 1) (b :: rest)
  | _ => []

def enumPairs (l : List Stud) : List (ℕ × Stud × Stud) :=
  enumPairsFrom 0 l

/-- The violation record built by `check_stud_spacing` for pair `i`. -/
def mkSpacingViolation (entry : RuleEntry) (sev : SeverityLevel)
    (std tol : ℚ) (i : ℕ) (s1 s2 : Stud) : DeterministicViolation :=
  { violation_id := "STUD_" ++ toString i ++ "_" ++ toString (i + 1)
    rule_id := entry.id
    element := "Studs " ++ s1.stud_id ++ " to " ++ s2.stud_id
    violation_type := "spacing"
    severity := sev
    expected := some std
    actual := some (s2.position_mm - s1.position_mm)
    unit := "mm"
    passed := false
    reason := "Spacing " ++ toString (s2.position_mm - s1.position_mm) ++
      "mm exceeds tolerance of ±" ++ toString tol ++ "mm (expected " ++
      toString std ++ "mm)" }

/-- The loop body of `check_stud_spacing`: walk the adjacent pairs, appending
a violation when `abs(actual_spacing - std_spacing) > tolerance`. -/
def spacingLoop (entry : RuleEntry) (std tol : ℚ) :
    List (ℕ × Stud × Stud) → Except String (List DeterministicViolation)
  | [] => .ok []
  | (i, s1, s2) :: rest =>
    if tol < |s2.position_mm - s1.position_mm - std| then do
      let sev ← sevOf (entry.severity.getD "high")
      let vs ← spacingLoop entry std tol rest
      .ok (mkSpacingViolation entry sev std tol i s1 s2 :: vs)
    else spacingLoop entry std tol rest

/-- `check_stud_spacing(panel, rules)`: verify stud spacing meets spec. -/
def check_stud_spacing (panel : PanelData) (rules : RuleTable) :
    Except String (List DeterministicViolation) :=
  match rules.stud_spacing with
  | none => .ok []
  | some fam =>
    match fam.rules with
    | none => .ok []
    | some rlist => do
      let entry ← keyOrErr "IndexError: list index out of range" rlist.head?
      let std ← keyOrErr "KeyError: standard_spacing_mm" fam.standard_spacing_mm
      let tol ← keyOrErr "KeyError: tolerance_mm" fam.tolerance_mm
      spacingLoop entry std tol (enumPairs panel.studs)

/-- The violation record built by `check_window_support` for one opening. -/
def mkWindowViolation (entry : RuleEntry) (sev : SeverityLevel)
    (o : Opening) : DeterministicViolation :=
  { violation_id := "WINDOW_" ++ o.opening_id
    rule_id := entry.id
    element := o.opening_id
    violation_type := "support"
    severity := sev
    expected := some 1
    actual := some 0
    unit := "boolean"
    passed := false
    reason := "Window missing jack studs or header" }

/-- The loop body of `check_window_support`. -/
def windowLoop (entry : RuleEntry) (thr : ℚ) :
    List Opening → Except String (List DeterministicViolation)
  | [] => .ok []
  | o :: rest =>
    if o.opening_type = "window" ∧ o.width_mm < thr then
      if o.has_jack_studs = false ∨ o.has_header = false then do
        let sev ← sevOf (entry.severity.getD "critical")
        let vs ← windowLoop entry thr rest
        .ok (mkWindowViolation entry sev o :: vs)
      else windowLoop entry thr rest
    else windowLoop entry thr rest

/-- `check_window_support(panel, rules)`: verify windows have required
support. -/
def check_window_support (panel : PanelData) (rules : RuleTable) :
    Except String (List DeterministicViolation) :=
  match rules.openings with
  | none => .ok []
  | some fam =>
    match fam.rules with
    | none => .ok []
    | some rlist => do
      let entry ← keyOrErr "IndexError: list index out of range" rlist.head?
      let thr ← keyOrErr "KeyError: width_threshold_mm" entry.width_threshold_mm
      windowLoop entry thr panel.openings

/-- The violation record built by `check_duct_clearance` for one duct. -/
def mkDuctViolation (entry : RuleEntry) (sev : SeverityLevel)
    (minC : ℚ) (d : Duct) : DeterministicViolation :=
  { violation_id := "DUCT_" ++ d.duct_id
    rule_id := entry.id
    element := d.duct_id
    violation_type := "clearance"
    severity := sev
    expected := some minC
    actual := some d.clearance_from_stud_mm
    unit := "mm"
    passed := false
    reason := "Clearance " ++ toString d.clearance_from_stud_mm ++
      "mm below minimum " ++ toString minC ++ "mm" }

/-- The loop body of `check_duct_clearance`. -/
def ductLoop (entry : RuleEntry) (minC : ℚ) :
    List Duct → Except String (List DeterministicViolation)
  | [] => .ok []
  | d :: rest =>
    if d.clearance_from_stud_mm < minC then do
      let sev ← sevOf (entry.severity.getD "high")
      let vs ← ductLoop entry minC rest
      .ok (mkDuctViolation entry sev minC d :: vs)
    else ductLoop entry minC rest

/-- `check_duct_clearance(panel, rules)`: verify duct clearances. -/
def check_duct_clearance (panel : PanelData) (rules : RuleTable) :
    Except String (List DeterministicViolation) :=
  match rules.mep_clearance with
  | none => .ok []
  | some fam =>
    match fam.rules with
    | none => .ok []
    | some rlist => do
      let entry ← keyOrErr "IndexError: list index out of range" rlist.head?
      let minC ← keyOrErr "KeyError: duct_to_stud_mm" fam.duct_to_stud_mm
      ductLoop entry minC panel.ducts

/-- One violation record as seen by `ViolationMerger.merge` (a plain dict):
`violation_id` may be absent (`v.get("violation_id")` then yields `None`),
and `payload` stands for all remaining key-value pairs of the dict. -/
structure MergeViolation where
  violation_id : Option String
  payload : String
deriving DecidableEq

/-- The deterministic-checker result dict consumed by the merger. -/
structure DetResult where
  panel_id : Option String
  violations : List MergeViolation
deriving DecidableEq

/-- The LLM-analyzer result dict consumed by the merger. -/
structure LlmResult where
  additional_violations : List MergeViolation
  needs_engineer_review : Bool
  design_concerns : List String
  summary : Option String
deriving DecidableEq

/-- The merged report dict produced by `ViolationMerger.merge`. -/
structure MergedResult where
  panel_id : String
  deterministic_result : DetResult
  llm_result : LlmResult
  llm_caught_additionally : List MergeViolation
  total_violations : ℕ
  needs_review : Bool
  final_status : String
  design_concerns : List String
  summary : String
deriving DecidableEq

/-- `ViolationMerger.merge(det_result, llm_result)`. -/
def merge (det_result : DetResult) (llm_result : LlmResult) : MergedResult :=
  let det_violations := det_result.violations.map (·.violation_id)
  let llm_violations := llm_result.additional_violations
  let llm_only := llm_violations.filter (fun v => decide (v.violation_id ∉ det_violations))
  let total_violations := det_result.violations.length + llm_only.length
  let needs_review := decide (0 < llm_only.length) || llm_result.needs_engineer_review
  let final_status :=
    if needs_review then "⚠️ NEEDS REVIEW"
    else if 0 < total_violations then "❌ FAIL"
    else "✅ PASS"
  { panel_id := det_result.panel_id.getD "UNKNOWN"
    deterministic_result := det_result
    llm_result := llm_result
    llm_caught_additionally := llm_only
    total_violations := total_violations
    needs_review := needs_review
    final_status := final_status
    design_concerns := llm_result.design_concerns
    summary := llm_result.summary.getD "Analysis complete" }

/-- Concrete merger inputs for the duplicate-retention witness: one
deterministic violation `V1`; two external violations that share the id
`DUP` (absent from the deterministic ids). -/
def detDup : DetResult :=
  { panel_id := some "P-10"
    violations := [{ violation_id := some "V1", payload := "det" }] }

def llmDup : LlmResult :=
  { additional_violations :=
      [{ violation_id := some "DUP", payload := "first copy" },
       { violation_id := some "DUP", payload := "second copy" }]
    needs_engineer_review := false
    design_concerns := []
    summary := none }

/-- Insertion of a stud into a list sorted by ascending `position_mm`. -/
def insertStudByPos (s : Stud) : List Stud → List Stud
  | [] => [s]
  | t :: ts =>
    if s.position_mm ≤ t.position_mm then s :: t :: ts else t :: insertStudByPos s ts

/-- Insertion sort of studs by ascending `position_mm` (spec side: used to
state what "the same panel with studs sorted by position_mm" means). -/
def sortStudsByPos (l : List Stud) : List Stud :=
  l.foldr insertStudByPos []

/-- The same panel with its studs sorted by ascending `position_mm`. -/
def sortPanelByPos (p : PanelData) : PanelData :=
  { p with studs := sortStudsByPos p.studs }

/-- A rule table carrying the example thresholds of the spec for the stud-spacing
family: standard spacing 406 mm, tolerance 6.35 mm, severity high. -/
def spacingRules : RuleTable :=
  { stud_spacing := some
      { rules := some [{ id := "STUD-SPACING-16", severity := some "high",
                         width_threshold_mm := none }]
        standard_spacing_mm := some 406
        tolerance_mm := some (6.35 : ℚ)
        duct_to_stud_mm := none }
    openings := none
    mep_clearance := none }

/-- A panel whose stud list is not sorted by `position_mm`: positions appear
in the order 406, 0, 812. -/
def panelUnsorted : PanelData :=
  { panel_id := "P-4"
    name := "Unsorted panel"
    width_mm := 1000
    height_mm := 2400
    studs := [{ stud_id := "S1", position_mm := 406, width_mm := 38, depth_mm := 89 },
              { stud_id := "S2", position_mm := 0, width_mm := 38, depth_mm := 89 },
              { stud_id := "S3", position_mm := 812, width_mm := 38, depth_mm := 89 }]
    openings := []
    ducts := []
    seismic_zone := 1 }

/-- Scenario A of the spec: six studs spaced exactly 406 mm apart. -/
def panelScenarioA : PanelData :=
  { panel_id := "P-A"
    name := "Scenario A"
    width_mm := 2030
    height_mm := 2400
    studs := [{ stud_id := "A1", position_mm := 0, width_mm := 38, depth_mm := 89 },
              { stud_id := "A2", position_mm := 406, width_mm := 38, depth_mm := 89 },
              { stud_id := "A3", position_mm := 812, width_mm := 38, depth_mm := 89 },
              { stud_id := "A4", position_mm := 1218, width_mm := 38, depth_mm := 89 },
              { stud_id := "A5", position_mm := 1624, width_mm := 38, depth_mm := 89 },
              { stud_id := "A6", position_mm := 2030, width_mm := 38, depth_mm := 89 }]
    openings := []
    ducts := []
    seismic_zone := 1 }

/-- A rule table whose `stud_spacing` family is present with its `rules`
list, but whose `tolerance_mm` threshold sub-key is absent. -/
def rulesNoTolerance : RuleTable :=
  { stud_spacing := some
      { rules := some [{ id := "STUD-SPACING-16", severity := some "high",
                         width_threshold_mm := none }]
        standard_spacing_mm := some 406
        tolerance_mm := none
        duct_to_stud_mm := none }
    openings := none
    mep_clearance := none }

/-- A rule table with every family key absent. -/
def emptyRules : RuleTable :=
  { stud_spacing := none, openings := none, mep_clearance := none }

/-- A minimal panel (no studs, openings or ducts). -/
def panelTrivial : PanelData :=
  { panel_id := "P-0"
    name := "Trivial panel"
    width_mm := 1000
    height_mm := 2400
    studs := []
    openings := []
    ducts := []
    seismic_zone := 1 }

/-- A rule table carrying the example thresholds of the spec for the openings
family: width threshold 900 mm, severity critical. -/
def openingRules : RuleTable :=
  { stud_spacing := none
    openings := some
      { rules := some [{ id := "WINDOW-SUPPORT-1", severity := some "critical",
                         width_threshold_mm := some 900 }]
        standard_spacing_mm := none
        tolerance_mm := none
        duct_to_stud_mm := none }
    mep_clearance := none }

/-- Scenario C of the spec: one window of width 700 mm with a header but no
jack studs. -/
def panelScenarioC : PanelData :=
  { panel_id := "P-C"
    name := "Scenario C"
    width_mm := 3000
    height_mm := 2400
    studs := []
    openings := [{ opening_id := "W1", opening_type := "window",
                   position_mm := 1200, width_mm := 700, height_mm := 1000,
                   has_jack_studs := false, has_header := true,
                   is_corner := false }]
    ducts := []
    seismic_zone := 1 }

/-- Does `needle` occur at the start of `hay`? -/
def startsWithSeq : List Char → List Char → Bool
  | [], _ => true
  | _ :: _, [] => false
  | a :: as, b :: bs => a == b && startsWithSeq as bs

/-- Python substring containment `needle in hay` over character lists. -/
def containsSeq (needle : List Char) : List Char → Bool
  | [] => needle.isEmpty
  | h :: t => startsWithSeq needle (h :: t) || containsSeq needle t

/-- Python `s.lower()` as a character list. -/
def lowerChars (s : String) : List Char :=
  s.data.map Char.toLower

/-- Python `needle in hay` for a string needle and a lowered haystack. -/
def strContains (needle : String) (hay : List Char) : Bool :=
  containsSeq needle.data hay

/-- One violation record as seen by the remediation applier:
`violation.get("reason", "")` and `violation.get("rule_id", "")` (an absent
key behaves as the empty string). -/
structure RemViolation where
  reason : String
  rule_id : String
deriving DecidableEq

/-- The remediation JSON: `remediation_data.get("violations_with_remediation", [])`. -/
structure RemediationData where
  violations_with_remediation : List RemViolation
deriving DecidableEq

/-- The per-opening body of `_fix_window_support`: every window gets
`has_jack_studs = True` and `has_header = True`. -/
def fixOpen (o : Opening) : Opening :=
  if o.opening_type = "window"
  then { o with has_jack_studs := true, has_header := true }
  else o

/-- `RemediationApplier._fix_window_support`. -/
def fix_window_support (panel : PanelData) : PanelData :=
  { panel with openings := panel.openings.map fixOpen }

/-- The loop of the general branch of `_fix_stud_spacing`:
`for i, stud in enumerate(panel.studs): stud.position_mm = i * spacing`,
started at index `i`. -/
def repositionFrom (d : ℚ) : ℕ → List Stud → List Stud
  | _, [] => []
  | i, s :: rest =>
    { s with position_mm := (i : ℚ) * d } :: repositionFrom d (i + 1) rest

/-- The stud list produced by `_fix_stud_spacing` from the panel width and
the current studs: below 2 studs nothing changes; exactly 2 studs go to the
edges `0` and `panel_width`; otherwise stud `i` goes to
`i * (panel_width / (num_studs - 1))`. -/
def studsAfterFix (w : ℚ) (l : List Stud) : List Stud :=
  if l.length < 2 then l
  else if l.length = 2 then
    match l with
    | s0 :: s1 :: rest =>
      { s0 with position_mm := 0 } :: { s1 with position_mm := w } :: rest
    | _ => l
  else repositionFrom (w / ((l.length : ℚ) - 1)) 0 l

/-- `RemediationApplier._fix_stud_spacing`. -/
def fix_stud_spacing (panel : PanelData) : PanelData :=
  { panel with studs := studsAfterFix panel.width_mm panel.studs }

/-- Does this violation trigger the window-support fix?
`"jack stud" in reason or "header" in reason or "window_support" in rule_id.lower()`. -/
def triggersWindowFix (v : RemViolation) : Bool :=
  strContains "jack stud" (lowerChars v.reason) ||
  strContains "header" (lowerChars v.reason) ||
  strContains "window_support" (lowerChars v.rule_id)

/-- Does this violation trigger the stud-spacing fix?
`"spacing" in reason or "stud_spacing" in rule_id.lower()`. -/
def triggersSpacingFix (v : RemViolation) : Bool :=
  strContains "spacing" (lowerChars v.reason) ||
  strContains "stud_spacing" (lowerChars v.rule_id)

/-- One iteration of the `apply_fixes` loop over violations: conditionally
the window-support fix, then conditionally the spacing fix (the
bracing/seismic branch changes nothing). -/
def applyStep (acc : PanelData) (v : RemViolation) : PanelData :=
  let a1 := if triggersWindowFix v then fix_window_support acc else acc
  if triggersSpacingFix v then fix_stud_spacing a1 else a1

/-- `RemediationApplier.apply_fixes`: deep-copy the panel, retag its id and
name, then apply the per-violation fixes in order. -/
def apply_fixes (panel_data : PanelData) (remediation_data : RemediationData) :
    PanelData :=
  let fixed := { panel_data with
    panel_id := panel_data.panel_id ++ "_FIXED"
    name := panel_data.name ++ " (After Remediation)" }
  remediation_data.violations_with_remediation.foldl applyStep fixed

/-- One bracing element dict emitted by `get_bracing_elements`. -/
structure BracingElement where
  type : String
  opening_id : String
  position_mm : ℚ
  width_mm : ℚ
deriving DecidableEq

/-- The bracing element appended for one corner/edge opening. -/
def mkBrace (o : Opening) : BracingElement :=
  { type := "diagonal_brace"
    opening_id := o.opening_id
    position_mm := o.position_mm
    width_mm := o.width_mm }

/-- The loop of `get_bracing_elements`: one element per opening that is a
corner or within 500 mm of the (left) panel edge. -/
def braceLoop : List Opening → List BracingElement
  | [] => []
  | o :: rest =>
    if o.is_corner || decide (o.position_mm < 500)
    then mkBrace o :: braceLoop rest
    else braceLoop rest

/-- `RemediationApplier.get_bracing_elements`. -/
def get_bracing_elements (panel_data : PanelData)
    (remediation_data : RemediationData) : List BracingElement :=
  let violations := remediation_data.violations_with_remediation
  let has_bracing_violation := violations.any (fun v =>
    strContains "bracing" (lowerChars v.reason) ||
    strContains "seismic" (lowerChars v.reason))
  let is_high_seismic := decide (3 ≤ panel_data.seismic_zone)
  let has_corner_window := panel_data.openings.any (fun o =>
    o.is_corner || decide (o.position_mm < 500))
  if has_bracing_violation || (is_high_seismic && has_corner_window)
  then braceLoop panel_data.openings
  else []

/-- An empty remediation payload (no violations with remediation). -/
def remEmpty : RemediationData :=
  { violations_with_remediation := [] }

/-- Claim C3: `merge` partitions the external list against the deterministic
violation ids, keeps the non-duplicates as `llm_caught_additionally`, counts
`total_violations = |deterministic| + |external_only|`, sets `needs_review`
iff `external_only` is non-empty or the external review flag is set, and
picks `final_status` by the precedence needs-review, then fail, then pass. -/
theorem merge_partitions_and_aggregates (det : DetResult) (llm : LlmResult) :
    (merge det llm).llm_caught_additionally =
      (llm.additional_violations.partition
        (fun v => decide (v.violation_id ∈ det.violations.map (·.violation_id)))).2 ∧
    (merge det llm).total_violations =
      det.violations.length + (merge det llm).llm_caught_additionally.length ∧
    ((merge det llm).needs_review = true ↔
      (merge det llm).llm_caught_additionally ≠ [] ∨ llm.needs_engineer_review = true) ∧
    (merge det llm).final_status =
      if (merge det llm).llm_caught_additionally ≠ [] ∨ llm.needs_engineer_review = true
      then "⚠️ NEEDS REVIEW"
      else if 0 < (merge det llm).total_violations then "❌ FAIL" else "✅ PASS" := by
  have hpart : (llm.additional_violations.partition
      (fun v => decide (v.violation_id ∈ det.violations.map (·.violation_id)))).2 =
      llm.additional_violations.filter
        (fun v => decide (v.violation_id ∉ det.violations.map (·.violation_id))) := by
    rw [List.partition_eq_filter_filter]
    refine List.filter_congr ?_
    intro v _
    simp only [Function.comp_apply, decide_not]
  have hla : (merge det llm).llm_caught_additionally =
      llm.additional_violations.filter
        (fun v => decide (v.violation_id ∉ det.violations.map (·.violation_id))) := rfl
  have h3 : (merge det llm).needs_review =
      (decide (0 < (merge det llm).llm_caught_additionally.length)
        || llm.needs_engineer_review) := rfl
  have h4 : (merge det llm).final_status =
      (if (decide (0 < (merge det llm).llm_caught_additionally.length)
            || llm.needs_engineer_review) = true then "⚠️ NEEDS REVIEW"
       else if 0 < (merge det llm).total_violations then "❌ FAIL"
       else "✅ PASS") := rfl
  refine ⟨hla.trans hpart.symm, rfl, ?_, ?_⟩
  · rw [h3, Bool.or_eq_true, decide_eq_true_iff, List.length_pos]
  · rw [h4]
    refine if_congr ?_ rfl rfl
    rw [Bool.or_eq_true, decide_eq_true_iff, List.length_pos]

/-- Claim C10: the merger deduplicates only against the deterministic ids,
never within the external list: for an id absent from the deterministic ids,
every external violation bearing it is kept in `llm_caught_additionally`
(the per-id count is preserved), and `total_violations` counts the whole of
`llm_caught_additionally` on top of the deterministic violations. -/
theorem merge_keeps_external_duplicates (det : DetResult) (llm : LlmResult)
    (x : Option String) (h : x ∉ det.violations.map (·.violation_id)) :
    (merge det llm).llm_caught_additionally.countP (fun v => v.violation_id == x) =
      llm.additional_violations.countP (fun v => v.violation_id == x) ∧
    (merge det llm).total_violations =
      det.violations.length + (merge det llm).llm_caught_additionally.length := by
  refine ⟨?_, rfl⟩
  show (llm.additional_violations.filter
      (fun v => decide (v.violation_id ∉ det.violations.map (·.violation_id)))).countP
      (fun v => v.violation_id == x) = _
  rw [List.countP_filter]
  refine List.countP_congr ?_
  intro v _
  by_cases hv : v.violation_id = x
  · simp [hv, h]
  · simp [hv]

/-- Witness for C10: with one deterministic violation `V1` and two external
violations both carrying the fresh id `DUP`, both duplicates are kept and
`total_violations = 3`. -/
theorem merge_keeps_external_duplicates_witness :
    (merge detDup llmDup).llm_caught_additionally.countP
      (fun v => v.violation_id == some "DUP") = 2 ∧
    (merge detDup llmDup).total_violations = 3 := by
  have h := merge_keeps_external_duplicates detDup llmDup (some "DUP") (by decide)
  exact ⟨h.1.trans (by decide), h.2.trans (by decide)⟩

/-- Helper: binding an `ok` value in the `Except` monad applies the
continuation. -/
theorem exceptBindOk {α β : Type} (a : α) (f : α → Except String β) :
    (Except.ok a : Except String α) >>= f = f a := rfl

/-- Helper: the spacing loop, when the configured severity string is valid,
keeps exactly the adjacent pairs whose deviation strictly exceeds the
tolerance, in list order. -/
theorem spacingLoop_ok (entry : RuleEntry) (std tol : ℚ) (sev : SeverityLevel)
    (hsev : sevOf (entry.severity.getD "high") = .ok sev)
    (L : List (ℕ × Stud × Stud)) :
    spacingLoop entry std tol L =
      .ok ((L.filter
          (fun x => decide (tol < |x.2.2.position_mm - x.2.1.position_mm - std|))).map
        (fun x => mkSpacingViolation entry sev std tol x.1 x.2.1 x.2.2)) := by
  induction L with
  | nil => rfl
  | cons hd rest ih =>
    obtain ⟨i, s1, s2⟩ := hd
    by_cases h : tol < |s2.position_mm - s1.position_mm - std|
    · simp only [spacingLoop, if_pos h, hsev, exceptBindOk, ih]
      simp [List.filter_cons, h]
    · simp only [spacingLoop, if_neg h, ih]
      simp [List.filter_cons, h]

/-- Helper: `check_stud_spacing` under a fully populated `stud_spacing`
family equals the list-order pair characterization. -/
theorem check_stud_spacing_eq (p : PanelData) (rt : RuleTable)
    {fam : RuleFamily} {entry : RuleEntry} {rest : List RuleEntry}
    {std tol : ℚ} {sev : SeverityLevel}
    (h1 : rt.stud_spacing = some fam) (h2 : fam.rules = some (entry :: rest))
    (h3 : fam.standard_spacing_mm = some std) (h4 : fam.tolerance_mm = some tol)
    (hsev : sevOf (entry.severity.getD "high") = .ok sev) :
    check_stud_spacing p rt =
      .ok (((enumPairs p.studs).filter
          (fun x => decide (tol < |x.2.2.position_mm - x.2.1.position_mm - std|))).map
        (fun x => mkSpacingViolation entry sev std tol x.1 x.2.1 x.2.2)) := by
  simp only [check_stud_spacing, h1, h2, h3, h4, keyOrErr, List.head?,
    exceptBindOk]
  exact spacingLoop_ok entry std tol sev hsev (enumPairs p.studs)

/-- Helper: the window loop, when the configured severity string is valid,
keeps exactly the windows below the threshold that lack jack studs or a
header, one violation each, in list order. -/
theorem windowLoop_ok (entry : RuleEntry) (thr : ℚ) (sev : SeverityLevel)
    (hsev : sevOf (entry.severity.getD "critical") = .ok sev)
    (L : List Opening) :
    windowLoop entry thr L =
      .ok ((L.filter (fun o =>
          decide ((o.opening_type = "window" ∧ o.width_mm < thr) ∧
            (o.has_jack_studs = false ∨ o.has_header = false)))).map
        (mkWindowViolation entry sev)) := by
  induction L with
  | nil => rfl
  | cons o rest ih =>
    by_cases h1 : o.opening_type = "window" ∧ o.width_mm < thr
    · by_cases h2 : o.has_jack_studs = false ∨ o.has_header = false
      · have hc : ((o.opening_type = "window" ∧ o.width_mm < thr) ∧
            (o.has_jack_studs = false ∨ o.has_header = false)) := ⟨h1, h2⟩
        simp only [windowLoop, if_pos h1, if_pos h2, hsev, exceptBindOk, ih]
        simp [List.filter_cons, hc]
      · have hc : ¬((o.opening_type = "window" ∧ o.width_mm < thr) ∧
            (o.has_jack_studs = false ∨ o.has_header = false)) := fun c => h2 c.2
        simp only [windowLoop, if_pos h1, if_neg h2, ih]
        simp [List.filter_cons, hc]
    · have hc : ¬((o.opening_type = "window" ∧ o.width_mm < thr) ∧
          (o.has_jack_studs = false ∨ o.has_header = false)) := fun c => h1 c.1
      simp only [windowLoop, if_neg h1, ih]
      simp [List.filter_cons, hc]

/-- Helper: `check_window_support` under a fully populated `openings` family
equals the filter-map characterization. -/
theorem check_window_support_eq (p : PanelData) (rt : RuleTable)
    {fam : RuleFamily} {entry : RuleEntry} {rest : List RuleEntry}
    {thr : ℚ} {sev : SeverityLevel}
    (h1 : rt.openings = some fam) (h2 : fam.rules = some (entry :: rest))
    (h3 : entry.width_threshold_mm = some thr)
    (hsev : sevOf (entry.severity.getD "critical") = .ok sev) :
    check_window_support p rt =
      .ok ((p.openings.filter (fun o =>
          decide ((o.opening_type = "window" ∧ o.width_mm < thr) ∧
            (o.has_jack_studs = false ∨ o.has_header = false)))).map
        (mkWindowViolation entry sev)) := by
  simp only [check_window_support, h1, h2, h3, keyOrErr, List.head?,
    exceptBindOk]
  exact windowLoop_ok entry thr sev hsev p.openings

/-- Claim C2 (amended): when a rule family key is missing, or when a present
`"rules"` sub-key of a present family is missing, the corresponding check returns an
empty violation list. (A missing numeric threshold sub-key of a present
family instead raises a `KeyError`; see the counterexample.) -/
theorem checks_skip_missing_family (p : PanelData) (rt : RuleTable) :
    ((rt.stud_spacing = none ∨
        ∃ fam, rt.stud_spacing = some fam ∧ fam.rules = none) →
      check_stud_spacing p rt = .ok []) ∧
    ((rt.openings = none ∨
        ∃ fam, rt.openings = some fam ∧ fam.rules = none) →
      check_window_support p rt = .ok []) ∧
    ((rt.mep_clearance = none ∨
        ∃ fam, rt.mep_clearance = some fam ∧ fam.rules = none) →
      check_duct_clearance p rt = .ok []) := by
  refine ⟨?_, ?_, ?_⟩
  · rintro (h | ⟨fam, hfam, hrules⟩)
    · simp [check_stud_spacing, h]
    · simp [check_stud_spacing, hfam, hrules]
  · rintro (h | ⟨fam, hfam, hrules⟩)
    · simp [check_window_support, h]
    · simp [check_window_support, hfam, hrules]
  · rintro (h | ⟨fam, hfam, hrules⟩)
    · simp [check_duct_clearance, h]
    · simp [check_duct_clearance, hfam, hrules]

/-- Witness for C2 (amended): on a concrete panel and a rule table with all
three family keys absent, all three checks return the empty list. -/
theorem checks_skip_missing_family_witness :
    check_stud_spacing panelTrivial emptyRules = .ok [] ∧
    check_window_support panelTrivial emptyRules = .ok [] ∧
    check_duct_clearance panelTrivial emptyRules = .ok [] :=
  ⟨(checks_skip_missing_family panelTrivial emptyRules).1 (Or.inl rfl),
   (checks_skip_missing_family panelTrivial emptyRules).2.1 (Or.inl rfl),
   (checks_skip_missing_family panelTrivial emptyRules).2.2 (Or.inl rfl)⟩

/-- Counterexample for C2 as stated: a rule table whose `stud_spacing`
family is present (with its `rules` list and `standard_spacing_mm`) but
whose `tolerance_mm` threshold sub-key is missing makes `check_stud_spacing`
raise a `KeyError` instead of returning an empty violation list. -/
theorem missing_threshold_raises :
    check_stud_spacing panelTrivial rulesNoTolerance =
      .error "KeyError: tolerance_mm" ∧
    check_stud_spacing panelTrivial rulesNoTolerance ≠ .ok [] :=
  ⟨rfl, by decide⟩

/-- Claim C4 (amended): the stud-spacing check computes actual spacing over
adjacent stud pairs in the order they appear in the stud list of the panel
(ascending `position_mm` is a convention of the input, not enforced by the
check), emitting one violation for a pair exactly when the absolute
deviation from the standard spacing strictly exceeds the tolerance. -/
theorem stud_spacing_listorder_pairs (p : PanelData) (rt : RuleTable)
    {fam : RuleFamily} {entry : RuleEntry} {rest : List RuleEntry}
    {std tol : ℚ} {sev : SeverityLevel}
    (h1 : rt.stud_spacing = some fam) (h2 : fam.rules = some (entry :: rest))
    (h3 : fam.standard_spacing_mm = some std) (h4 : fam.tolerance_mm = some tol)
    (hsev : sevOf (entry.severity.getD "high") = .ok sev) :
    check_stud_spacing p rt =
      .ok (((enumPairs p.studs).filter
          (fun x => decide (tol < |x.2.2.position_mm - x.2.1.position_mm - std|))).map
        (fun x => mkSpacingViolation entry sev std tol x.1 x.2.1 x.2.2)) :=
  check_stud_spacing_eq p rt h1 h2 h3 h4 hsev

/-- Witness for C4 (amended): the characterization instantiated on a
concrete unsorted panel and the example rule table. -/
theorem stud_spacing_listorder_pairs_witness :
    check_stud_spacing panelUnsorted spacingRules =
      .ok (((enumPairs panelUnsorted.studs).filter
          (fun x => decide ((6.35 : ℚ) <
            |x.2.2.position_mm - x.2.1.position_mm - 406|))).map
        (fun x => mkSpacingViolation
          { id := "STUD-SPACING-16", severity := some "high",
            width_threshold_mm := none }
          .high 406 (6.35 : ℚ) x.1 x.2.1 x.2.2)) :=
  stud_spacing_listorder_pairs panelUnsorted spacingRules rfl rfl rfl rfl rfl

/-- Counterexample for C4 as stated: on a panel whose studs appear in the
order 406, 0, 812 the check emits two violations, while on the same panel
with studs sorted by `position_mm` it emits none — the result is not
invariant under sorting the studs. -/
theorem stud_spacing_not_sort_invariant :
    check_stud_spacing panelUnsorted spacingRules ≠
      check_stud_spacing (sortPanelByPos panelUnsorted) spacingRules := by
  have e1 := check_stud_spacing_eq panelUnsorted spacingRules
    rfl rfl rfl rfl rfl
  have e2 := check_stud_spacing_eq (sortPanelByPos panelUnsorted) spacingRules
    rfl rfl rfl rfl rfl
  rw [e1, e2]
  norm_num [panelUnsorted, sortPanelByPos, sortStudsByPos, insertStudByPos,
    enumPairs, enumPairsFrom, List.filter_cons, lt_abs]
  exact List.cons_ne_nil _ _

/-- Claim C5: a violation is emitted only under the strict inequality
`|actual_spacing - standard_spacing| > tolerance`; in particular the check
returns no violations exactly when the deviation of every adjacent pair is at
most the tolerance, so a pair exactly at the boundary never contributes. -/
theorem stud_spacing_strict_at_tolerance (p : PanelData) (rt : RuleTable)
    {fam : RuleFamily} {entry : RuleEntry} {rest : List RuleEntry}
    {std tol : ℚ} {sev : SeverityLevel}
    (h1 : rt.stud_spacing = some fam) (h2 : fam.rules = some (entry :: rest))
    (h3 : fam.standard_spacing_mm = some std) (h4 : fam.tolerance_mm = some tol)
    (hsev : sevOf (entry.severity.getD "high") = .ok sev) :
    check_stud_spacing p rt = .ok [] ↔
      ∀ x ∈ enumPairs p.studs,
        |x.2.2.position_mm - x.2.1.position_mm - std| ≤ tol := by
  rw [check_stud_spacing_eq p rt h1 h2 h3 h4 hsev]
  simp [List.filter_eq_nil_iff, not_lt]

/-- Witness for C5: Scenario A of the spec — six studs spaced exactly
406 mm apart with tolerance 6.35 mm yield zero spacing violations. -/
theorem stud_spacing_strict_at_tolerance_witness :
    check_stud_spacing panelScenarioA spacingRules = .ok [] := by
  refine (stud_spacing_strict_at_tolerance panelScenarioA spacingRules
    rfl rfl rfl rfl rfl).mpr ?_
  intro x hx
  simp only [panelScenarioA, enumPairs, enumPairsFrom, List.mem_cons,
    List.not_mem_nil, or_false] at hx
  rcases hx with rfl | rfl | rfl | rfl | rfl <;> norm_num

/-- Claim C6: the opening-support check emits exactly one violation per
opening of type window with width strictly below the threshold that lacks
jack studs or lacks a header (one violation even when both are missing);
all other openings — non-windows, windows at or above the threshold, and
fully supported windows — contribute nothing. -/
theorem window_support_one_violation (p : PanelData) (rt : RuleTable)
    {fam : RuleFamily} {entry : RuleEntry} {rest : List RuleEntry}
    {thr : ℚ} {sev : SeverityLevel}
    (h1 : rt.openings = some fam) (h2 : fam.rules = some (entry :: rest))
    (h3 : entry.width_threshold_mm = some thr)
    (hsev : sevOf (entry.severity.getD "critical") = .ok sev) :
    check_window_support p rt =
      .ok ((p.openings.filter (fun o =>
          decide ((o.opening_type = "window" ∧ o.width_mm < thr) ∧
            (o.has_jack_studs = false ∨ o.has_header = false)))).map
        (mkWindowViolation entry sev)) :=
  check_window_support_eq p rt h1 h2 h3 hsev

/-- Witness for C6: Scenario C of the spec — a 700 mm window below the
900 mm threshold with a header but no jack studs yields exactly one
missing-support violation. -/
theorem window_support_one_violation_witness :
    check_window_support panelScenarioC openingRules =
      .ok [mkWindowViolation
        { id := "WINDOW-SUPPORT-1", severity := some "critical",
          width_threshold_mm := some 900 }
        .critical
        { opening_id := "W1", opening_type := "window", position_mm := 1200,
          width_mm := 700, height_mm := 1000, has_jack_studs := false,
          has_header := true, is_corner := false }] := by
  have h := window_support_one_violation panelScenarioC openingRules
    rfl rfl rfl rfl
  rw [h]
  norm_num [panelScenarioC, List.filter_cons]

/-- Helper: the window fix is idempotent on one opening. -/
theorem fixOpen_idem (o : Opening) : fixOpen (fixOpen o) = fixOpen o := by
  rcases o with ⟨oid, ot, pos, w, h, js, hd, c⟩
  by_cases hq : ot = "window" <;> simp [fixOpen, hq]

/-- Helper: the window fix is idempotent on a panel. -/
theorem fix_window_support_idem (p : PanelData) :
    fix_window_support (fix_window_support p) = fix_window_support p := by
  show (⟨p.panel_id, p.name, p.width_mm, p.height_mm, p.studs,
    (p.openings.map fixOpen).map fixOpen, p.ducts, p.seismic_zone⟩ : PanelData) = _
  rw [List.map_map]
  congr 1
  exact List.map_congr_left fun o _ => fixOpen_idem o

/-- Helper: repositioning preserves the number of studs. -/
theorem repositionFrom_length (d : ℚ) (n : ℕ) (l : List Stud) :
    (repositionFrom d n l).length = l.length := by
  induction l generalizing n with
  | nil => rfl
  | cons s t ih => simp [repositionFrom, ih]

/-- Helper: repositioning is idempotent (positions are recomputed from the
index and the fixed spacing only). -/
theorem repositionFrom_idem (d : ℚ) (n : ℕ) (l : List Stud) :
    repositionFrom d n (repositionFrom d n l) = repositionFrom d n l := by
  induction l generalizing n with
  | nil => rfl
  | cons s t ih =>
    rcases s with ⟨sid, pos, w, dp⟩
    simp [repositionFrom, ih]

/-- Helper: the spacing fix preserves the number of studs. -/
theorem studsAfterFix_length (w : ℚ) (l : List Stud) :
    (studsAfterFix w l).length = l.length := by
  unfold studsAfterFix
  split_ifs with h1 h2
  · rfl
  · rcases l with _ | ⟨a, _ | ⟨b, t⟩⟩ <;> simp
  · exact repositionFrom_length _ _ _

/-- Helper: the spacing-fix stud list is idempotent. -/
theorem studsAfterFix_idem (w : ℚ) (l : List Stud) :
    studsAfterFix w (studsAfterFix w l) = studsAfterFix w l := by
  by_cases h1 : l.length < 2
  · simp [studsAfterFix, h1]
  · by_cases h2 : l.length = 2
    · rcases l with _ | ⟨s0, _ | ⟨s1, _ | ⟨s2, t⟩⟩⟩
      · simp at h1
      · simp at h1
      · rcases s0 with ⟨i0, p0, w0, d0⟩
        rcases s1 with ⟨i1, p1, w1, d1⟩
        simp [studsAfterFix]
      · simp at h2
    · have e : studsAfterFix w l = repositionFrom (w / ((l.length : ℚ) - 1)) 0 l := by
        simp [studsAfterFix, h1, h2]
      rw [e]
      have hlen := repositionFrom_length (w / ((l.length : ℚ) - 1)) 0 l
      simp [studsAfterFix, hlen, h1, h2, repositionFrom_idem]

/-- Helper: the spacing fix is idempotent on a panel. -/
theorem fix_stud_spacing_idem (p : PanelData) :
    fix_stud_spacing (fix_stud_spacing p) = fix_stud_spacing p := by
  show (⟨p.panel_id, p.name, p.width_mm, p.height_mm,
    studsAfterFix p.width_mm (studsAfterFix p.width_mm p.studs),
    p.openings, p.ducts, p.seismic_zone⟩ : PanelData) = _
  rw [studsAfterFix_idem]
  rfl

/-- Helper: the window fix and the spacing fix touch disjoint fields and
commute. -/
theorem fix_window_spacing_comm (p : PanelData) :
    fix_window_support (fix_stud_spacing p) =
      fix_stud_spacing (fix_window_support p) := rfl

/-- Helper: one remediation step is idempotent. -/
theorem applyStep_idem (acc : PanelData) (v : RemViolation) :
    applyStep (applyStep acc v) v = applyStep acc v := by
  dsimp only [applyStep]
  by_cases hw : triggersWindowFix v <;> by_cases hs : triggersSpacingFix v <;>
    simp [hw, hs, fix_window_spacing_comm, fix_window_support_idem,
      fix_stud_spacing_idem]

/-- Helper: remediation steps commute pairwise. -/
theorem applyStep_comm (acc : PanelData) (v w : RemViolation) :
    applyStep (applyStep acc v) w = applyStep (applyStep acc w) v := by
  dsimp only [applyStep]
  by_cases hw1 : triggersWindowFix v <;> by_cases hs1 : triggersSpacingFix v <;>
    by_cases hw2 : triggersWindowFix w <;> by_cases hs2 : triggersSpacingFix w <;>
      simp [hw1, hs1, hw2, hs2, fix_window_spacing_comm]

/-- Helper: one step commutes with a whole fold of steps. -/
theorem applyStep_foldl (l : List RemViolation) (acc : PanelData)
    (v : RemViolation) :
    applyStep (l.foldl applyStep acc) v = l.foldl applyStep (applyStep acc v) := by
  induction l generalizing acc with
  | nil => rfl
  | cons w t ih =>
    rw [List.foldl_cons, List.foldl_cons, ih, applyStep_comm]

/-- Helper: folding the same violation list twice is the same as folding it
once. -/
theorem foldl_applyStep_idem (l : List RemViolation) (acc : PanelData) :
    l.foldl applyStep (l.foldl applyStep acc) = l.foldl applyStep acc := by
  induction l generalizing acc with
  | nil => rfl
  | cons v t ih =>
    rw [List.foldl_cons, List.foldl_cons, applyStep_foldl, applyStep_idem, ih]

/-- Helper: one step ignores and preserves `panel_id` and `name`. -/
theorem applyStep_labels (acc : PanelData) (v : RemViolation) :
    (applyStep acc v).panel_id = acc.panel_id ∧
    (applyStep acc v).name = acc.name := by
  dsimp only [applyStep]
  by_cases hw : triggersWindowFix v <;> by_cases hs : triggersSpacingFix v <;>
    simp [hw, hs, fix_window_support, fix_stud_spacing]

/-- Helper: the fold of steps preserves `panel_id` and `name`. -/
theorem foldl_applyStep_labels (l : List RemViolation) (acc : PanelData) :
    (l.foldl applyStep acc).panel_id = acc.panel_id ∧
    (l.foldl applyStep acc).name = acc.name := by
  induction l generalizing acc with
  | nil => exact ⟨rfl, rfl⟩
  | cons v t ih =>
    rw [List.foldl_cons]
    exact ⟨(ih _).1.trans (applyStep_labels acc v).1,
           (ih _).2.trans (applyStep_labels acc v).2⟩

/-- Helper: one step commutes with relabelling `panel_id` and `name`. -/
theorem applyStep_relabel (acc : PanelData) (v : RemViolation) (a b : String) :
    applyStep { acc with panel_id := a, name := b } v =
      { applyStep acc v with panel_id := a, name := b } := by
  dsimp only [applyStep]
  by_cases hw : triggersWindowFix v <;> by_cases hs : triggersSpacingFix v <;>
    simp [hw, hs] <;> rfl

/-- Helper: the fold of steps commutes with relabelling. -/
theorem foldl_applyStep_relabel (l : List RemViolation) (acc : PanelData)
    (a b : String) :
    l.foldl applyStep { acc with panel_id := a, name := b } =
      { l.foldl applyStep acc with panel_id := a, name := b } := by
  induction l generalizing acc with
  | nil => rfl
  | cons v t ih =>
    rw [List.foldl_cons, List.foldl_cons, applyStep_relabel, ih]

/-- Claim C9: `apply_fixes` returns a fresh panel tagged with the derived id
`<original>_FIXED` and the derived name `<original> (After Remediation)`;
the result is never equal to the input panel (the embedding is a pure
function of the input value, mirroring the deep copy in the source: the
input itself is left untouched). -/
theorem apply_fixes_new_instance (p : PanelData) (rem : RemediationData) :
    (apply_fixes p rem).panel_id = p.panel_id ++ "_FIXED" ∧
    (apply_fixes p rem).name = p.name ++ " (After Remediation)" ∧
    apply_fixes p rem ≠ p := by
  have h0 : apply_fixes p rem = rem.violations_with_remediation.foldl applyStep
      { p with panel_id := p.panel_id ++ "_FIXED",
               name := p.name ++ " (After Remediation)" } := rfl
  have hid : (apply_fixes p rem).panel_id = p.panel_id ++ "_FIXED" := by
    rw [h0, (foldl_applyStep_labels _ _).1]
  have hnm : (apply_fixes p rem).name = p.name ++ " (After Remediation)" := by
    rw [h0, (foldl_applyStep_labels _ _).2]
  refine ⟨hid, hnm, fun hcontra => ?_⟩
  have hI := congrArg PanelData.panel_id hcontra
  rw [hid] at hI
  have hlen := congrArg String.length hI
  rw [String.length_append] at hlen
  have h6 : "_FIXED".length = 6 := rfl
  rw [h6] at hlen
  omega

/-- Claim C1 (amended): re-applying `apply_fixes` to an already-fixed panel
reproduces the once-fixed panel in every field except `panel_id` and `name`,
which receive the `_FIXED` / ` (After Remediation)` suffixes once more: the
geometric fixes themselves (support flags, recomputed stud positions) are
idempotent, the derived labels are not. -/
theorem apply_fixes_idem_up_to_labels (p : PanelData) (rem : RemediationData) :
    apply_fixes (apply_fixes p rem) rem =
      { apply_fixes p rem with
        panel_id := (apply_fixes p rem).panel_id ++ "_FIXED"
        name := (apply_fixes p rem).name ++ " (After Remediation)" } := by
  have h0 : apply_fixes p rem = rem.violations_with_remediation.foldl applyStep
      { p with panel_id := p.panel_id ++ "_FIXED",
               name := p.name ++ " (After Remediation)" } := rfl
  have h1 : apply_fixes (apply_fixes p rem) rem =
      rem.violations_with_remediation.foldl applyStep
        { apply_fixes p rem with
          panel_id := (apply_fixes p rem).panel_id ++ "_FIXED"
          name := (apply_fixes p rem).name ++ " (After Remediation)" } := rfl
  have h2 : rem.violations_with_remediation.foldl applyStep (apply_fixes p rem) =
      apply_fixes p rem := by
    rw [h0]
    exact foldl_applyStep_idem _ _
  rw [h1, foldl_applyStep_relabel, h2]

/-- Counterexample for C1 as stated: even with an empty violation list the
second application is not the identity on the once-fixed panel — the
panel id becomes `P-0_FIXED_FIXED` rather than staying `P-0_FIXED`. -/
theorem apply_fixes_not_idempotent :
    apply_fixes (apply_fixes panelTrivial remEmpty) remEmpty ≠
      apply_fixes panelTrivial remEmpty := by decide

/-- Helper: repositioning from index `n` is an indexed map. -/
theorem repositionFrom_eq (d : ℚ) (n : ℕ) (l : List Stud) :
    repositionFrom d n l =
      l.mapIdx (fun i s => { s with position_mm := ((n + i : ℕ) : ℚ) * d }) := by
  induction l generalizing n with
  | nil => rfl
  | cons s t ih =>
    rw [repositionFrom, List.mapIdx_cons, ih (n + 1)]
    congr 1
    refine congrFun (congrArg List.mapIdx ?_) t
    funext i s
    congr 1
    push_cast
    ring

/-- Claim C7: when the stud-spacing fix runs, it redistributes studs evenly
across `[0, panel.width_mm]`: with `N ≥ 2` studs, stud `i` is placed at
`i * (panel.width_mm / (N - 1))` (so for `N = 2` the positions become
exactly `0` and `panel.width_mm` regardless of the original positions);
with fewer than 2 studs, and on every other field of the panel, nothing
changes. -/
theorem fix_stud_spacing_even (p : PanelData) :
    fix_stud_spacing p =
      { p with studs :=
          if p.studs.length < 2 then p.studs
          else p.studs.mapIdx (fun i s =>
            { s with position_mm :=
                (i : ℚ) * (p.width_mm / ((p.studs.length : ℚ) - 1)) }) } := by
  by_cases h1 : p.studs.length < 2
  · simp [fix_stud_spacing, studsAfterFix, h1]
  · by_cases h2 : p.studs.length = 2
    · rcases p with ⟨pid, nm, w, ht, studs, ops, ds, z⟩
      rcases studs with _ | ⟨s0, _ | ⟨s1, _ | ⟨s2, t⟩⟩⟩
      · simp at h1
      · simp at h1
      · rcases s0 with ⟨i0, p0, w0, d0⟩
        rcases s1 with ⟨i1, p1, w1, d1⟩
        simp [fix_stud_spacing, studsAfterFix, List.mapIdx_cons]
        norm_num
      · simp at h2
    · have e : studsAfterFix p.width_mm p.studs =
          repositionFrom (p.width_mm / ((p.studs.length : ℚ) - 1)) 0 p.studs := by
        simp [studsAfterFix, h1, h2]
      simp only [fix_stud_spacing, e, if_neg h1]
      rw [repositionFrom_eq]
      simp

/-- Helper: the bracing loop is a filter-map over the openings. -/
theorem braceLoop_eq (L : List Opening) :
    braceLoop L =
      (L.filter (fun o => o.is_corner || decide (o.position_mm < 500))).map
        mkBrace := by
  induction L with
  | nil => rfl
  | cons o t ih =>
    by_cases h : (o.is_corner || decide (o.position_mm < 500)) = true
    · simp [braceLoop, h, ih, List.filter_cons]
    · simp [braceLoop, h, ih, List.filter_cons]

/-- Claim C8: `get_bracing_elements` emits one bracing element for every
opening that is marked corner or lies within 500 mm of the panel edge,
exactly when a bracing/seismic violation is present in the input or
`seismic_zone ≥ 3` and such a corner/edge opening exists; it returns only
this list and, being a pure function, leaves the panel untouched. -/
theorem get_bracing_elements_spec (p : PanelData) (rem : RemediationData) :
    get_bracing_elements p rem =
      if (∃ v ∈ rem.violations_with_remediation,
            strContains "bracing" (lowerChars v.reason) = true ∨
            strContains "seismic" (lowerChars v.reason) = true) ∨
          (3 ≤ p.seismic_zone ∧
            ∃ o ∈ p.openings, o.is_corner = true ∨ o.position_mm < 500)
      then (p.openings.filter
          (fun o => o.is_corner || decide (o.position_mm < 500))).map mkBrace
      else [] := by
  dsimp only [get_bracing_elements]
  rw [braceLoop_eq]
  refine if_congr ?_ rfl rfl
  simp [List.any_eq_true, Bool.or_eq_true, Bool.and_eq_true, decide_eq_true_eq]
